import Mathlib

/-!
Shallow embedding of the binding-inventory rendering core of
`packages/wrangler/src/environment-variables/misc-variables.ts`:
the `printBindings` function (binding classifier, connectivity resolution
against the local dev registry, tail-consumer lines, the
`hasConnectionStatus` flag) and the `createAddSuffix` /
`normalizeValue` / `truncate` helpers.

JavaScript values of type `string | symbol | undefined` are modelled by
`JsStr`; optional strings (`string | undefined`) by `Option String`, where
JS truthiness (`if (x)`) maps absent and the empty string to `false`.
The registry parameter `WorkerRegistry | null | undefined` is modelled by
`Option (Option Registry)`: `none` is an absent (`undefined`) registry,
`some none` is an explicitly `null` registry, `some (some r)` a present one.
Terminal coloring (`chalk.green` / `chalk.red`) is a formatting concern
outside this core and is modelled as the identity on strings.
-/

namespace Wrangler

/-- Model of a JavaScript `string | symbol | undefined` value. -/
inductive JsStr where
  | js (s : String)
  | sym
  | undef
deriving DecidableEq

/-- JS truthiness of a `string | undefined` value: `undefined` and `""` are falsy. -/
def jsTruthyS (v : Option String) : Bool :=
  match v with
  | none => false
  | some s => s != ""

/-- Embeds `string | undefined` into `JsStr` (used where the source passes such a value on). -/
def optJsStr (v : Option String) : JsStr :=
  match v with
  | some s => JsStr.js s
  | none => JsStr.undef

/-- Source `normalizeValue`: a falsy or symbol value normalizes to the empty string. -/
def normalizeValue (value : JsStr) : String :=
  match value with
  | JsStr.js s => s
  | JsStr.sym => ""
  | JsStr.undef => ""

/-- Source `createAddSuffix` applied to its returned `addSuffix` closure:
`addSuffix isProvisioning isLocalDev value isSimulatedLocally`. -/
def addSuffix (isProvisioning : Bool) (isLocalDev : Bool) (value : JsStr)
    (isSimulatedLocally : Bool) : String :=
  let normalizedValue := normalizeValue value
  if isProvisioning || !isLocalDev then
    normalizedValue
  else if isSimulatedLocally then
    normalizedValue ++ " [simulated locally]"
  else
    normalizedValue ++ " [connected to remote resource]"

/-- Source `truncate` (the string case; every call site passes a string):
values of length at least 40 are cut to the first 37 characters plus `"..."`. -/
def truncate (s : String) : String :=
  if s.length < 40 then s else String.mk (s.data.take 37) ++ "..."

/-- Terminal coloring is out of scope for this core; `chalk.green` is the identity. -/
def chalkGreen (s : String) : String := s

/-- Terminal coloring is out of scope for this core; `chalk.red` is the identity. -/
def chalkRed (s : String) : String := s

/-- Modelled from the spec: a registry entrypoint address record
(`entrypointAddresses: mapping from entrypoint name to address`); the
`WorkerRegistry` type itself is outside `src/`. A looked-up address record is
a JS object and hence always truthy. -/
structure EntrypointAddress where
  host : String
  port : Nat
deriving DecidableEq

/-- Modelled from the spec: one item of a registry entry's `durableObjects` sequence. -/
structure DurableObjectInfo where
  className : String
deriving DecidableEq

/-- Modelled from the spec: one registry entry
(`{ durableObjects, entrypointAddresses }`); `entrypointAddresses` is accessed
with `?.` in the source, so it may be absent. -/
structure WorkerDefinition where
  durableObjects : List DurableObjectInfo
  entrypointAddresses : Option (List (String × EntrypointAddress))
deriving DecidableEq

/-- Modelled from the spec: the registry snapshot, a mapping from service name
to `WorkerDefinition`. -/
abbrev Registry := List (String × WorkerDefinition)

/-- Source `context.registry !== null` (true for an absent registry). -/
def registryNotNull (registry : Option (Option Registry)) : Bool :=
  match registry with
  | some none => false
  | _ => true

/-- Source `context.registry?.[name]`: the lookup yields nothing when the
registry is absent or `null`. -/
def registryLookup (registry : Option (Option Registry)) (name : String) :
    Option WorkerDefinition :=
  match registry with
  | some (some r) => r.lookup name
  | _ => none

/-- Source `registryDefinition.entrypointAddresses?.[entrypoint]` as a truthiness
test: the address record is an object, hence truthy exactly when present. -/
def entrypointLookup (addrs : Option (List (String × EntrypointAddress)))
    (entrypoint : String) : Bool :=
  match addrs with
  | some m => (m.lookup entrypoint).isSome
  | none => false

/-- The `context` parameter of `printBindings` (without `name`, which only
affects message titles), plus the two experimental flags read via `getFlag`. -/
structure RenderContext where
  registry : Option (Option Registry)
  isLocal : Bool
  imagesLocalMode : Bool
  provisioning : Bool
  mixedModeFlag : Bool
deriving DecidableEq

/-- One `{key, value}` display entry of an output group. -/
structure DisplayEntry where
  key : String
  value : String
deriving DecidableEq

/-- One `{name, entries}` group pushed onto `output`. -/
structure DisplayGroup where
  name : String
  entries : List DisplayEntry
deriving DecidableEq

/-- The `addSuffix` closure built once per `printBindings` call from the context. -/
def ctxAddSuffix (ctx : RenderContext) (value : JsStr) (isSimulatedLocally : Bool) :
    String :=
  addSuffix ctx.provisioning ctx.isLocal value isSimulatedLocally

/-- The `[connected]` marker for service bindings, which depends on the
`MIXED_MODE` experimental flag. -/
def connectedMarker (mixedMode : Bool) : String :=
  if mixedMode then "[connected to local resource]" else "[connected]"

/-- JSON values, for `vars` and `unsafe.metadata` payloads. String escaping is
elided (keys and string contents are taken to need no escapes). -/
inductive Json where
  | jnull
  | jbool (b : Bool)
  | jnum (n : Int)
  | jstr (s : String)
  | jarr (items : List Json)
  | jobj (fields : List (String × Json))

mutual

/-- JS `JSON.stringify(value)` (compact form, used for `unsafe.metadata` values). -/
def Json.stringify : Json → String
  | Json.jnull => "null"
  | Json.jbool b => cond b "true" "false"
  | Json.jnum n => toString n
  | Json.jstr s => "\"" ++ s ++ "\""
  | Json.jarr items => "[" ++ Json.stringifyItems items ++ "]"
  | Json.jobj fields => "\x7b" ++ Json.stringifyFields fields ++ "\x7d"

/-- Comma-separated compact rendering of a JSON array's items. -/
def Json.stringifyItems : List Json → String
  | [] => ""
  | [x] => Json.stringify x
  | x :: y :: rest => Json.stringify x ++ "," ++ Json.stringifyItems (y :: rest)

/-- Comma-separated compact rendering of a JSON object's fields. -/
def Json.stringifyFields : List (String × Json) → String
  | [] => ""
  | [(k, v)] => "\"" ++ k ++ "\":" ++ Json.stringify v
  | (k, v) :: f :: rest =>
    "\"" ++ k ++ "\":" ++ Json.stringify v ++ "," ++ Json.stringifyFields (f :: rest)

end

mutual

/-- JS `JSON.stringify(value, null, 1)` (the indented form used for structured
`vars` values), at a given indentation depth. -/
def Json.stringifyIndent (depth : Nat) : Json → String
  | Json.jnull => "null"
  | Json.jbool b => cond b "true" "false"
  | Json.jnum n => toString n
  | Json.jstr s => "\"" ++ s ++ "\""
  | Json.jarr [] => "[]"
  | Json.jarr (x :: xs) =>
    "[\n" ++ Json.stringifyIndentItems (depth + 1) (x :: xs) ++ "\n" ++
      String.mk (List.replicate depth ' ') ++ "]"
  | Json.jobj [] => "\x7b\x7d"
  | Json.jobj (f :: fs) =>
    "\x7b\n" ++ Json.stringifyIndentFields (depth + 1) (f :: fs) ++ "\n" ++
      String.mk (List.replicate depth ' ') ++ "\x7d"

/-- Indented rendering of a JSON array's items, one per line. -/
def Json.stringifyIndentItems (depth : Nat) : List Json → String
  | [] => ""
  | [x] => String.mk (List.replicate depth ' ') ++ Json.stringifyIndent depth x
  | x :: y :: rest =>
    String.mk (List.replicate depth ' ') ++ Json.stringifyIndent depth x ++ ",\n" ++
      Json.stringifyIndentItems depth (y :: rest)

/-- Indented rendering of a JSON object's fields, one per line. -/
def Json.stringifyIndentFields (depth : Nat) : List (String × Json) → String
  | [] => ""
  | [(k, v)] =>
    String.mk (List.replicate depth ' ') ++ "\"" ++ k ++ "\": " ++
      Json.stringifyIndent depth v
  | (k, v) :: f :: rest =>
    String.mk (List.replicate depth ' ') ++ "\"" ++ k ++ "\": " ++
      Json.stringifyIndent depth v ++ ",\n" ++
      Json.stringifyIndentFields depth (f :: rest)

end

/-- A `data_blobs` value: `string | Buffer`. -/
inductive BlobValue where
  | bstr (s : String)
  | bbuffer
deriving DecidableEq

/-- A `wasm_modules` value: `string | Buffer` (module bytes render as `<Wasm>`). -/
inductive WasmValue where
  | wstr (s : String)
  | wmodule
deriving DecidableEq

/-- A `vars` value: a string, a structured object, or another scalar already
coerced to its JS string form. -/
inductive VarValue where
  | vstr (s : String)
  | vobj (j : Json)
  | vother (coerced : String)

/-- One record of `durable_objects.bindings`. -/
structure DurableObjectBinding where
  name : String
  class_name : String
  script_name : Option String
deriving DecidableEq

/-- The `durable_objects` field (`{ bindings: [...] }`). -/
structure DurableObjectsField where
  bindings : List DurableObjectBinding
deriving DecidableEq

/-- One `workflows` record. -/
structure WorkflowBinding where
  binding : String
  class_name : String
  script_name : Option String
  remote : Bool
deriving DecidableEq

/-- One `kv_namespaces` record. -/
structure KVNamespaceBinding where
  binding : String
  id : JsStr
  remote : Bool
deriving DecidableEq

/-- One `send_email` record (each variant of the union carries at most one of
the two address fields). -/
structure SendEmailBinding where
  name : String
  destination_address : Option String
  allowed_destination_addresses : Option (List String)
deriving DecidableEq

/-- One `queues` producer record. -/
structure QueueBinding where
  binding : String
  queue_name : String
  remote : Bool
deriving DecidableEq

/-- One `d1_databases` record. -/
structure D1DatabaseBinding where
  binding : String
  database_name : Option String
  database_id : JsStr
  preview_database_id : Option String
  remote : Bool
deriving DecidableEq

/-- One `vectorize` record. -/
structure VectorizeBinding where
  binding : String
  index_name : String
deriving DecidableEq

/-- One `hyperdrive` record. -/
structure HyperdriveBinding where
  binding : String
  id : String
deriving DecidableEq

/-- One `r2_buckets` record. -/
structure R2BucketBinding where
  binding : String
  bucket_name : JsStr
  jurisdiction : Option String
  remote : Bool
deriving DecidableEq

/-- One `logfwdr.bindings` record. -/
structure LogfwdrBinding where
  name : String
  destination : String
deriving DecidableEq

/-- The `logfwdr` field (`{ bindings: [...] }`). -/
structure LogfwdrField where
  bindings : List LogfwdrBinding
deriving DecidableEq

/-- One `secrets_store_secrets` record. -/
structure SecretsStoreSecretBinding where
  binding : String
  store_id : String
  secret_name : String
deriving DecidableEq

/-- One `services` record. -/
structure ServiceBinding where
  binding : String
  service : String
  entrypoint : Option String
  remote : Bool
deriving DecidableEq

/-- One `analytics_engine_datasets` record. -/
structure AnalyticsEngineBinding where
  binding : String
  dataset : Option String
deriving DecidableEq

/-- The `browser` singleton field. -/
structure BrowserField where
  binding : String
deriving DecidableEq

/-- The `images` singleton field. -/
structure ImagesField where
  binding : String
deriving DecidableEq

/-- The `ai` singleton field. -/
structure AIField where
  binding : String
  staging : Option Bool
deriving DecidableEq

/-- One `pipelines` record. -/
structure PipelineBinding where
  binding : String
  pipeline : String
deriving DecidableEq

/-- The `assets` singleton field. -/
structure AssetsField where
  binding : String
deriving DecidableEq

/-- The `version_metadata` singleton field. -/
structure VersionMetadataField where
  binding : String
deriving DecidableEq

/-- One record of the `unsafe.bindings` list. -/
structure UnsafeBindingRecord where
  name : String
  type : String
deriving DecidableEq

/-- The `unsafe` field: an optional list of raw bindings and an optional
metadata record. -/
structure UnsafeField where
  bindings : Option (List UnsafeBindingRecord)
  metadata : Option (List (String × Json))

/-- The `outbound` sub-record of a `dispatch_namespaces` record. -/
structure DispatchOutbound where
  service : String
deriving DecidableEq

/-- One `dispatch_namespaces` record. -/
structure DispatchNamespaceBinding where
  binding : String
  namespace_ : String
  outbound : Option DispatchOutbound
deriving DecidableEq

/-- One `mtls_certificates` record. -/
structure MTLSCertificateBinding where
  binding : String
  certificate_id : String
deriving DecidableEq

/-- One tail consumer (`CfTailConsumer`). -/
structure TailConsumer where
  service : String
deriving DecidableEq

/-- The `bindings` parameter of `printBindings`: JS maps become association
lists (in `Object.entries` order), absent fields become `none`. -/
structure BindingConfig where
  data_blobs : Option (List (String × BlobValue))
  durable_objects : Option DurableObjectsField
  workflows : Option (List WorkflowBinding)
  kv_namespaces : Option (List KVNamespaceBinding)
  send_email : Option (List SendEmailBinding)
  queues : Option (List QueueBinding)
  d1_databases : Option (List D1DatabaseBinding)
  vectorize : Option (List VectorizeBinding)
  hyperdrive : Option (List HyperdriveBinding)
  r2_buckets : Option (List R2BucketBinding)
  logfwdr : Option LogfwdrField
  secrets_store_secrets : Option (List SecretsStoreSecretBinding)
  services : Option (List ServiceBinding)
  analytics_engine_datasets : Option (List AnalyticsEngineBinding)
  text_blobs : Option (List (String × String))
  browser : Option BrowserField
  images : Option ImagesField
  ai : Option AIField
  pipelines : Option (List PipelineBinding)
  assets : Option AssetsField
  version_metadata : Option VersionMetadataField
  unsafeCfg : Option UnsafeField
  vars : Option (List (String × VarValue))
  wasm_modules : Option (List (String × WasmValue))
  dispatch_namespaces : Option (List DispatchNamespaceBinding)
  mtls_certificates : Option (List MTLSCertificateBinding)

/-- Entry for one `data_blobs` key: strings are truncated, buffers render as a
placeholder. -/
def dataBlobEntry (kv : String × BlobValue) : DisplayEntry :=
  ⟨kv.1, match kv.2 with
    | BlobValue.bstr s => truncate s
    | BlobValue.bbuffer => "<Buffer>"⟩

/-- Entry (and `hasConnectionStatus` contribution) for one durable-object
binding, translated from the `durable_objects.bindings.map` body. -/
def doEntry (ctx : RenderContext) (b : DurableObjectBinding) : DisplayEntry × Bool :=
  if jsTruthyS b.script_name then
    let s := b.script_name.getD ""
    if ctx.isLocal && registryNotNull ctx.registry then
      match registryLookup ctx.registry s with
      | some registryDefinition =>
        if registryDefinition.durableObjects.any (fun d => d.className == b.class_name) then
          (⟨b.name, b.class_name ++ " (defined in " ++ s ++ " " ++
            chalkGreen "[connected]" ++ ")"⟩, true)
        else
          (⟨b.name, b.class_name ++ " (defined in " ++ s ++ " " ++
            chalkRed "[not connected]" ++ ")"⟩, true)
      | none =>
        (⟨b.name, b.class_name ++ " (defined in " ++ s ++ " " ++
          chalkRed "[not connected]" ++ ")"⟩, true)
    else
      (⟨b.name, b.class_name ++ " (defined in " ++ s ++ ")"⟩, false)
  else
    (⟨b.name, b.class_name⟩, false)

/-- Entry for one `workflows` record. -/
def workflowEntry (ctx : RenderContext) (w : WorkflowBinding) : DisplayEntry :=
  let value := w.class_name ++
    (if jsTruthyS w.script_name then " (defined in " ++ w.script_name.getD "" ++ ")" else "")
  ⟨w.binding,
    if jsTruthyS w.script_name then value
    else ctxAddSuffix ctx (JsStr.js value) (!w.remote)⟩

/-- Entry for one `kv_namespaces` record. -/
def kvEntry (ctx : RenderContext) (b : KVNamespaceBinding) : DisplayEntry :=
  ⟨b.binding, ctxAddSuffix ctx b.id (!b.remote)⟩

/-- Entry for one `send_email` record:
`destination_address || allowed_destination_addresses?.join(", ") || "unrestricted"`. -/
def sendEmailEntry (ctx : RenderContext) (e : SendEmailBinding) : DisplayEntry :=
  let first := e.destination_address.getD ""
  let second := (e.allowed_destination_addresses.map (String.intercalate ", ")).getD ""
  let text := if first != "" then first else if second != "" then second else "unrestricted"
  ⟨e.name, ctxAddSuffix ctx (JsStr.js text) true⟩

/-- Entry for one `queues` record. -/
def queueEntry (ctx : RenderContext) (q : QueueBinding) : DisplayEntry :=
  ⟨q.binding, ctxAddSuffix ctx (JsStr.js q.queue_name) (!q.remote)⟩

/-- Entry for one `d1_databases` record, including the preview-identifier case. -/
def d1Entry (ctx : RenderContext) (d : D1DatabaseBinding) : DisplayEntry :=
  let remoteDatabaseId : Option String :=
    match d.database_id with
    | JsStr.js s => some s
    | _ => none
  let databaseValue : Option String :=
    if jsTruthyS remoteDatabaseId && jsTruthyS d.database_name then
      some (d.database_name.getD "" ++ " (" ++ remoteDatabaseId.getD "" ++ ")")
    else
      match remoteDatabaseId with
      | some s => some s
      | none => d.database_name
  let databaseValue : Option String :=
    if jsTruthyS d.preview_database_id && !(d.database_id == JsStr.js "local") then
      some ((if jsTruthyS databaseValue then databaseValue.getD "" ++ ", " else "") ++
        "Preview: (" ++ d.preview_database_id.getD "" ++ ")")
    else databaseValue
  ⟨d.binding, ctxAddSuffix ctx (optJsStr databaseValue) (!d.remote)⟩

/-- Entry for one `vectorize` record. -/
def vectorizeEntry (ctx : RenderContext) (v : VectorizeBinding) : DisplayEntry :=
  ⟨v.binding, ctxAddSuffix ctx (JsStr.js v.index_name) false⟩

/-- Entry for one `hyperdrive` record. -/
def hyperdriveEntry (ctx : RenderContext) (h : HyperdriveBinding) : DisplayEntry :=
  ⟨h.binding, ctxAddSuffix ctx (JsStr.js h.id) true⟩

/-- Entry for one `r2_buckets` record. -/
def r2Entry (ctx : RenderContext) (b : R2BucketBinding) : DisplayEntry :=
  let name :=
    (match b.bucket_name with
      | JsStr.js s => s
      | _ => "") ++
    (match b.jurisdiction with
      | some j => " (" ++ j ++ ")"
      | none => "")
  ⟨b.binding, ctxAddSuffix ctx (JsStr.js name) (!b.remote)⟩

/-- Entry for one `logfwdr.bindings` record. -/
def logfwdrEntry (ctx : RenderContext) (b : LogfwdrBinding) : DisplayEntry :=
  ⟨b.name, ctxAddSuffix ctx (JsStr.js b.destination) false⟩

/-- Entry for one `secrets_store_secrets` record. -/
def secretsStoreEntry (ctx : RenderContext) (s : SecretsStoreSecretBinding) : DisplayEntry :=
  ⟨s.binding, ctxAddSuffix ctx (JsStr.js (s.store_id ++ "/" ++ s.secret_name)) true⟩

/-- Entry (and `hasConnectionStatus` contribution) for one service binding,
translated from the `services.map` body. -/
def serviceEntry (ctx : RenderContext) (sb : ServiceBinding) : DisplayEntry × Bool :=
  let value := sb.service ++
    (if jsTruthyS sb.entrypoint then "#" ++ sb.entrypoint.getD "" else "")
  if sb.remote then
    (⟨sb.binding, ctxAddSuffix ctx (JsStr.js value) false⟩, false)
  else if ctx.isLocal && registryNotNull ctx.registry then
    match registryLookup ctx.registry sb.service with
    | some registryDefinition =>
      if !jsTruthyS sb.entrypoint ||
          entrypointLookup registryDefinition.entrypointAddresses (sb.entrypoint.getD "") then
        (⟨sb.binding, value ++ " " ++ chalkGreen (connectedMarker ctx.mixedModeFlag)⟩, true)
      else
        (⟨sb.binding, value ++ " " ++ chalkRed "[not connected]"⟩, true)
    | none =>
      (⟨sb.binding, value ++ " " ++ chalkRed "[not connected]"⟩, true)
  else
    (⟨sb.binding, value⟩, false)

/-- Entry for one `analytics_engine_datasets` record. -/
def analyticsEntry (ctx : RenderContext) (a : AnalyticsEngineBinding) : DisplayEntry :=
  ⟨a.binding, ctxAddSuffix ctx (JsStr.js (a.dataset.getD a.binding)) true⟩

/-- Entry for one `text_blobs` key. -/
def textBlobEntry (ctx : RenderContext) (kv : String × String) : DisplayEntry :=
  ⟨kv.1, ctxAddSuffix ctx (JsStr.js (truncate kv.2)) false⟩

/-- The single `images` entry: the suffix context uses `!!context.imagesLocalMode`
as its local-dev flag. -/
def imagesEntry (ctx : RenderContext) (i : ImagesField) : DisplayEntry :=
  ⟨"Name", addSuffix ctx.provisioning ctx.imagesLocalMode (JsStr.js i.binding) false⟩

/-- The `ai` entries: the name, plus a staging entry when `ai.staging` is truthy. -/
def aiEntries (ctx : RenderContext) (a : AIField) : List DisplayEntry :=
  ⟨"Name", ctxAddSuffix ctx (JsStr.js a.binding) false⟩ ::
    (if a.staging.getD false then
      [⟨"Staging", ctxAddSuffix ctx (JsStr.js "true") false⟩]
    else [])

/-- Entry for one `pipelines` record. -/
def pipelineEntry (ctx : RenderContext) (p : PipelineBinding) : DisplayEntry :=
  ⟨p.binding, ctxAddSuffix ctx (JsStr.js p.pipeline) false⟩

/-- Entry for one `unsafe.bindings` record: keyed by the record's `type`. -/
def unsafeBindingEntry (ctx : RenderContext) (b : UnsafeBindingRecord) : DisplayEntry :=
  ⟨b.type, ctxAddSuffix ctx (JsStr.js b.name) false⟩

/-- Entry for one `vars` key: strings are quoted and truncated, objects are
dumped with `JSON.stringify(value, null, 1)`, other scalars are coerced then
truncated. -/
def varsEntry (kv : String × VarValue) : DisplayEntry :=
  ⟨kv.1, match kv.2 with
    | VarValue.vstr s => "\"" ++ truncate s ++ "\""
    | VarValue.vobj j => Json.stringifyIndent 0 j
    | VarValue.vother s => truncate s⟩

/-- Entry for one `wasm_modules` key. -/
def wasmEntry (ctx : RenderContext) (kv : String × WasmValue) : DisplayEntry :=
  ⟨kv.1, ctxAddSuffix ctx
    (JsStr.js (match kv.2 with
      | WasmValue.wstr s => truncate s
      | WasmValue.wmodule => "<Wasm>")) false⟩

/-- Entry for one `dispatch_namespaces` record. -/
def dispatchEntry (ctx : RenderContext) (d : DispatchNamespaceBinding) : DisplayEntry :=
  ⟨d.binding, ctxAddSuffix ctx
    (JsStr.js (match d.outbound with
      | some o => d.namespace_ ++ " (outbound -> " ++ o.service ++ ")"
      | none => d.namespace_)) false⟩

/-- Entry for one `mtls_certificates` record. -/
def mtlsEntry (ctx : RenderContext) (c : MTLSCertificateBinding) : DisplayEntry :=
  ⟨c.binding, ctxAddSuffix ctx (JsStr.js c.certificate_id) false⟩

/-- The `unsafe.metadata` entries: each value `JSON.stringify`-ed (no truncation). -/
def metadataEntries (ctx : RenderContext) (m : List (String × Json)) : List DisplayEntry :=
  m.map (fun kv => ⟨kv.1, ctxAddSuffix ctx (JsStr.js (Json.stringify kv.2)) false⟩)

/-- A list-kind (or map-kind) group: emitted only when the payload is present
and non-empty (`x !== undefined && x.length > 0` / `Object.keys(x).length > 0`). -/
def listGroup {α : Type} (payload : Option (List α)) (groupName : String)
    (f : α → DisplayEntry) : List DisplayGroup :=
  match payload with
  | some l => if 0 < l.length then [⟨groupName, l.map f⟩] else []
  | none => []

/-- A singleton-kind group: emitted whenever the payload is present
(`x !== undefined`). -/
def singletonGroup {α : Type} (payload : Option α) (groupName : String)
    (f : α → List DisplayEntry) : List DisplayGroup :=
  match payload with
  | some a => [⟨groupName, f a⟩]
  | none => []

/-- The grouped inventory built by `printBindings` (its `output` array), with
the groups in the order the source pushes them. -/
def classifyGroups (cfg : BindingConfig) (ctx : RenderContext) : List DisplayGroup :=
  listGroup cfg.data_blobs "Data Blobs" dataBlobEntry
  ++ listGroup (cfg.durable_objects.map DurableObjectsField.bindings) "Durable Objects"
      (fun b => (doEntry ctx b).1)
  ++ listGroup cfg.workflows "Workflows" (workflowEntry ctx)
  ++ listGroup cfg.kv_namespaces "KV Namespaces" (kvEntry ctx)
  ++ listGroup cfg.send_email "Send Email" (sendEmailEntry ctx)
  ++ listGroup cfg.queues "Queues" (queueEntry ctx)
  ++ listGroup cfg.d1_databases "D1 Databases" (d1Entry ctx)
  ++ listGroup cfg.vectorize "Vectorize Indexes" (vectorizeEntry ctx)
  ++ listGroup cfg.hyperdrive "Hyperdrive Configs" (hyperdriveEntry ctx)
  ++ listGroup cfg.r2_buckets "R2 Buckets" (r2Entry ctx)
  ++ listGroup (cfg.logfwdr.map LogfwdrField.bindings) "logfwdr" (logfwdrEntry ctx)
  ++ listGroup cfg.secrets_store_secrets "Secrets Store Secrets" (secretsStoreEntry ctx)
  ++ listGroup cfg.services "Services" (fun sb => (serviceEntry ctx sb).1)
  ++ listGroup cfg.analytics_engine_datasets "Analytics Engine Datasets" (analyticsEntry ctx)
  ++ listGroup cfg.text_blobs "Text Blobs" (textBlobEntry ctx)
  ++ singletonGroup cfg.browser "Browser" (fun b => [⟨"Name", b.binding⟩])
  ++ singletonGroup cfg.images "Images" (fun i => [imagesEntry ctx i])
  ++ singletonGroup cfg.ai "AI" (aiEntries ctx)
  ++ listGroup cfg.pipelines "Pipelines" (pipelineEntry ctx)
  ++ singletonGroup cfg.assets "Assets" (fun a => [⟨"Binding", a.binding⟩])
  ++ singletonGroup cfg.version_metadata "Worker Version Metadata"
      (fun v => [⟨"Name", ctxAddSuffix ctx (JsStr.js v.binding) false⟩])
  ++ listGroup (cfg.unsafeCfg.bind UnsafeField.bindings) "Unsafe Metadata"
      (unsafeBindingEntry ctx)
  ++ listGroup cfg.vars "Vars" varsEntry
  ++ listGroup cfg.wasm_modules "Wasm Modules" (wasmEntry ctx)
  ++ listGroup cfg.dispatch_namespaces "Dispatch Namespaces" (dispatchEntry ctx)
  ++ listGroup cfg.mtls_certificates "mTLS Certificates" (mtlsEntry ctx)
  ++ singletonGroup (cfg.unsafeCfg.bind UnsafeField.metadata) "Unsafe Metadata"
      (metadataEntries ctx)

/-- One tail-consumer display line (and its `hasConnectionStatus` contribution). -/
def tailLine (ctx : RenderContext) (service : String) : String × Bool :=
  if ctx.isLocal && registryNotNull ctx.registry then
    match registryLookup ctx.registry service with
    | some _ => ("- " ++ service ++ " " ++ chalkGreen "[connected]", true)
    | none => ("- " ++ service ++ " " ++ chalkRed "[not connected]", true)
  else
    ("- " ++ service, false)

/-- Whether the durable-object entry for `b` performs a registry lookup
(`context.registry?.[script_name]` is evaluated). -/
def doResolves (ctx : RenderContext) (b : DurableObjectBinding) : Bool :=
  jsTruthyS b.script_name && (ctx.isLocal && registryNotNull ctx.registry)

/-- Whether the service entry for `sb` performs a registry lookup. -/
def serviceResolves (ctx : RenderContext) (sb : ServiceBinding) : Bool :=
  !sb.remote && (ctx.isLocal && registryNotNull ctx.registry)

/-- Whether a tail-consumer line performs a registry lookup. -/
def tailResolves (ctx : RenderContext) : Bool :=
  ctx.isLocal && registryNotNull ctx.registry

/-- The number of registry lookups performed during one render. -/
def resolveCount (cfg : BindingConfig) (tails : List TailConsumer)
    (ctx : RenderContext) : Nat :=
  (match cfg.durable_objects with
    | some dos => dos.bindings.countP (fun b => doResolves ctx b)
    | none => 0)
  + (match cfg.services with
    | some l => l.countP (fun sb => serviceResolves ctx sb)
    | none => 0)
  + tails.countP (fun _ => tailResolves ctx)

/-- The `hasConnectionStatus` flag of one `printBindings` call: initialized
false and set by the durable-object, service-binding, and tail-consumer
branches that consult the registry. -/
def hasConnectionStatus (cfg : BindingConfig) (tails : List TailConsumer)
    (ctx : RenderContext) : Bool :=
  (match cfg.durable_objects with
    | some dos => dos.bindings.any (fun b => (doEntry ctx b).2)
    | none => false)
  || (match cfg.services with
    | some l => l.any (fun sb => (serviceEntry ctx sb).2)
    | none => false)
  || tails.any (fun t => (tailLine ctx t.service).2)

/-- C5: for every string value of length at least 40, the truncated rendering
has length exactly 40 and ends in the ellipsis marker `"..."`; for every
string value of length below 40, the truncated rendering is the input
unchanged. -/
theorem truncate_spec (s : String) :
    (40 ≤ s.length → (truncate s).length = 40 ∧ ∃ t, truncate s = t ++ "...") ∧
    (s.length < 40 → truncate s = s) := by
  constructor
  · intro h
    have hnot : ¬ s.length < 40 := by omega
    refine ⟨?_, String.mk (s.data.take 37), by simp [truncate, hnot]⟩
    have hdata : s.length = s.data.length := rfl
    simp only [truncate, if_neg hnot, String.length_append, String.length_mk,
      List.length_take]
    have : ("..." : String).length = 3 := rfl
    omega
  · intro h
    simp [truncate, h]

/-- Witness for `truncate_spec` at a concrete 45-character string. -/
theorem truncate_spec_witness :
    40 ≤ ("0123456789012345678901234567890123456789ABCDE" : String).length ∧
    ((truncate "0123456789012345678901234567890123456789ABCDE").length = 40 ∧
      ∃ t, truncate "0123456789012345678901234567890123456789ABCDE" = t ++ "...") :=
  ⟨by decide, (truncate_spec "0123456789012345678901234567890123456789ABCDE").1 (by decide)⟩

/-- C4: the suffix decision table of `createAddSuffix`. When provisioning is on
or local dev is off, the decorated value is byte-identical to the normalized
undecorated value for every value and every `isSimulatedLocally`; otherwise
`" [simulated locally]"` is appended exactly when `isSimulatedLocally` is
true and `" [connected to remote resource]"` otherwise; a missing or symbolic
value normalizes to the empty string. -/
theorem addSuffix_decision_table (isProvisioning isLocalDev simulatedLocally : Bool)
    (value : JsStr) :
    (isProvisioning = true ∨ isLocalDev = false →
      addSuffix isProvisioning isLocalDev value simulatedLocally = normalizeValue value) ∧
    (isProvisioning = false → isLocalDev = true →
      addSuffix isProvisioning isLocalDev value simulatedLocally =
        normalizeValue value ++
          (if simulatedLocally then " [simulated locally]"
            else " [connected to remote resource]")) ∧
    normalizeValue JsStr.undef = "" ∧ normalizeValue JsStr.sym = "" := by
  refine ⟨?_, ?_, rfl, rfl⟩
  · rintro (h | h) <;> subst h <;> cases simulatedLocally <;> simp [addSuffix]
  · rintro h1 h2
    subst h1; subst h2
    cases simulatedLocally <;> simp [addSuffix]

/-- Witness for `addSuffix_decision_table` at concrete flag combinations. -/
theorem addSuffix_decision_table_witness :
    (addSuffix true false (JsStr.js "abc") true = normalizeValue (JsStr.js "abc")) ∧
    (addSuffix false true (JsStr.js "abc") true =
      normalizeValue (JsStr.js "abc") ++
        (if true then " [simulated locally]" else " [connected to remote resource]")) :=
  ⟨(addSuffix_decision_table true false true (JsStr.js "abc")).1 (Or.inl rfl),
    (addSuffix_decision_table false true true (JsStr.js "abc")).2.1 rfl rfl⟩

/-- C9: a durable-object binding without a `script_name` renders exactly its
`class_name`, with no suffix and no connectivity marker, in every context,
and never contributes to `hasConnectionStatus`. -/
theorem do_no_script_name (ctx : RenderContext) (b : DurableObjectBinding)
    (h : b.script_name = none) :
    doEntry ctx b = (⟨b.name, b.class_name⟩, false) := by
  simp [doEntry, jsTruthyS, h]

/-- Witness for `do_no_script_name` at a concrete binding and context. -/
theorem do_no_script_name_witness :
    doEntry ⟨some (some [("w", ⟨[⟨"C"⟩], none⟩)]), true, false, false, false⟩
      ⟨"DO", "C", none⟩ = (⟨"DO", "C"⟩, false) :=
  do_no_script_name ⟨some (some [("w", ⟨[⟨"C"⟩], none⟩)]), true, false, false, false⟩
    ⟨"DO", "C", none⟩ rfl

/-- C8: the Images entry's suffix is governed solely by
`context.imagesLocalMode`, not by `context.local`: with provisioning off, the
value carries the `" [connected to remote resource]"` suffix exactly when
`imagesLocalMode` is true and is unchanged otherwise, for every context
(in particular also when `context.local` is true). -/
theorem images_suffix_imagesLocalMode (ctx : RenderContext) (img : ImagesField)
    (h : ctx.provisioning = false) :
    imagesEntry ctx img =
      ⟨"Name", if ctx.imagesLocalMode then img.binding ++ " [connected to remote resource]"
        else img.binding⟩ := by
  cases him : ctx.imagesLocalMode <;>
    simp [imagesEntry, addSuffix, normalizeValue, h, him]

/-- Witness for `images_suffix_imagesLocalMode`: `context.local` is true but
`imagesLocalMode` is false, and the value is unchanged. -/
theorem images_suffix_imagesLocalMode_witness :
    imagesEntry ⟨none, true, false, false, false⟩ ⟨"IMG"⟩ =
      ⟨"Name", if false then "IMG" ++ " [connected to remote resource]" else "IMG"⟩ :=
  images_suffix_imagesLocalMode ⟨none, true, false, false, false⟩ ⟨"IMG"⟩ rfl

/-- C1 counterexample: with an absent (`undefined`) registry in local-dev mode,
a durable-object binding with a `script_name` does NOT get an `Unknown`
verdict: the rendered value carries the `[not connected]` marker and the
entry sets `hasConnectionStatus`, because the source only tests
`context.registry !== null`, which an absent registry passes. -/
theorem do_absent_registry_marker_cex :
    doEntry ⟨none, true, false, false, false⟩ ⟨"DO", "Counter", some "other-service"⟩ =
      (⟨"DO", "Counter (defined in other-service [not connected])"⟩, true) ∧
    (⟨none, true, false, false, false⟩ : RenderContext).registry = none := by
  constructor <;> rfl

/-- C1 amended: only an explicitly `null` registry (or local dev being off)
yields the `Unknown` verdict — no connectivity marker in the rendered value
and no `hasConnectionStatus` contribution — for durable-object bindings,
service bindings, and tail consumers alike; an absent registry in local-dev
mode is instead treated exactly like a registry that lacks the referenced
service: the `[not connected]` marker is rendered and `hasConnectionStatus`
is set. -/
theorem registry_null_unknown_amended (ctx : RenderContext) :
    (ctx.registry = some none ∨ ctx.isLocal = false →
      (∀ b : DurableObjectBinding, ∀ s, b.script_name = some s → s ≠ "" →
        doEntry ctx b = (⟨b.name, b.class_name ++ " (defined in " ++ s ++ ")"⟩, false)) ∧
      (∀ sb : ServiceBinding, sb.remote = false →
        serviceEntry ctx sb = (⟨sb.binding, sb.service ++
          (if jsTruthyS sb.entrypoint then "#" ++ sb.entrypoint.getD "" else "")⟩, false)) ∧
      (∀ t, tailLine ctx t = ("- " ++ t, false))) ∧
    (ctx.registry = none → ctx.isLocal = true →
      (∀ b : DurableObjectBinding, ∀ s, b.script_name = some s → s ≠ "" →
        doEntry ctx b =
          (⟨b.name, b.class_name ++ " (defined in " ++ s ++ " [not connected])"⟩, true)) ∧
      (∀ sb : ServiceBinding, sb.remote = false →
        serviceEntry ctx sb = (⟨sb.binding, sb.service ++
          (if jsTruthyS sb.entrypoint then "#" ++ sb.entrypoint.getD "" else "") ++
          " [not connected]"⟩, true))) := by
  constructor
  · intro h
    have hoff : (ctx.isLocal && registryNotNull ctx.registry) = false := by
      rcases h with h | h
      · simp [registryNotNull, h]
      · simp [h]
    refine ⟨?_, ?_, ?_⟩
    · intro b s hs hne
      simp [doEntry, jsTruthyS, hs, hne, hoff]
    · intro sb hrem
      simp [serviceEntry, hrem, hoff]
    · intro t
      simp [tailLine, hoff]
  · intro habs hloc
    constructor
    · intro b s hs hne
      simp [doEntry, jsTruthyS, hs, hne, hloc, registryNotNull, habs, registryLookup,
        chalkRed, String.append_assoc]
    · intro sb hrem
      simp [serviceEntry, hrem, hloc, registryNotNull, habs, registryLookup,
        chalkRed, String.append_assoc]

/-- Witness for `registry_null_unknown_amended`: a `null` registry renders no
marker, while an absent registry in local dev renders the not-connected
marker for a durable-object binding and for a service binding alike. -/
theorem registry_null_unknown_amended_witness :
    doEntry ⟨some none, true, false, false, false⟩ ⟨"DO", "Counter", some "other-service"⟩ =
      (⟨"DO", "Counter (defined in other-service)"⟩, false) ∧
    doEntry ⟨none, true, false, false, false⟩ ⟨"DO", "Counter", some "other-service"⟩ =
      (⟨"DO", "Counter (defined in other-service [not connected])"⟩, true) ∧
    serviceEntry ⟨none, true, false, false, false⟩ ⟨"SVC", "other-service", none, false⟩ =
      (⟨"SVC", "other-service [not connected]"⟩, true) :=
  ⟨((registry_null_unknown_amended ⟨some none, true, false, false, false⟩).1
      (Or.inl rfl)).1 ⟨"DO", "Counter", some "other-service"⟩ "other-service" rfl
      (by decide),
    ((registry_null_unknown_amended ⟨none, true, false, false, false⟩).2 rfl rfl).1
      ⟨"DO", "Counter", some "other-service"⟩ "other-service" rfl (by decide),
    ((registry_null_unknown_amended ⟨none, true, false, false, false⟩).2 rfl rfl).2
      ⟨"SVC", "other-service", none, false⟩ rfl⟩

/-- C2: a durable-object binding with a `script_name`, in local dev with a
non-null registry containing the referenced service, renders the connected
marker exactly when the registry entry's `durableObjects` contains an item
whose `className` equals the binding's `class_name`, and the not-connected
marker otherwise; in either case the entry sets `hasConnectionStatus`. -/
theorem do_connected_iff_class_match (ctx : RenderContext) (b : DurableObjectBinding)
    (s : String) (r : Registry) (d : WorkerDefinition)
    (hs : b.script_name = some s) (hne : s ≠ "")
    (hl : ctx.isLocal = true) (hr : ctx.registry = some (some r))
    (hd : r.lookup s = some d) :
    doEntry ctx b =
      (⟨b.name,
        if d.durableObjects.any (fun o => o.className == b.class_name) then
          b.class_name ++ " (defined in " ++ s ++ " [connected])"
        else
          b.class_name ++ " (defined in " ++ s ++ " [not connected])"⟩, true) := by
  have hts : jsTruthyS b.script_name = true := by simp [jsTruthyS, hs, hne]
  have hgd : b.script_name.getD "" = s := by simp [hs]
  have hon : (ctx.isLocal && registryNotNull ctx.registry) = true := by
    simp [hl, registryNotNull, hr]
  have hlook : registryLookup ctx.registry s = some d := by
    simp [registryLookup, hr, hd]
  by_cases hany : (d.durableObjects.any fun o => o.className == b.class_name) = true
  · simp only [doEntry, hts, hgd, hon, hlook, hany, chalkGreen, chalkRed]
    simp [String.append_assoc]
  · have hany' : (d.durableObjects.any fun o => o.className == b.class_name) = false := by
      simpa using hany
    simp only [doEntry, hts, hgd, hon, hlook, hany', chalkGreen, chalkRed]
    simp [String.append_assoc]

/-- Witness for `do_connected_iff_class_match`: the spec's Scenario 2, a
binding to class `"Counter"` in `"other-service"` whose registry entry
exposes that class. -/
theorem do_connected_iff_class_match_witness :
    doEntry ⟨some (some [("other-service", ⟨[⟨"Counter"⟩], none⟩)]), true, false, false, false⟩
      ⟨"DO", "Counter", some "other-service"⟩ =
      (⟨"DO",
        if ([⟨"Counter"⟩] : List DurableObjectInfo).any (fun o => o.className == "Counter") then
          "Counter" ++ " (defined in " ++ "other-service" ++ " [connected])"
        else
          "Counter" ++ " (defined in " ++ "other-service" ++ " [not connected])"⟩, true) :=
  do_connected_iff_class_match
    ⟨some (some [("other-service", ⟨[⟨"Counter"⟩], none⟩)]), true, false, false, false⟩
    ⟨"DO", "Counter", some "other-service"⟩ "other-service"
    [("other-service", ⟨[⟨"Counter"⟩], none⟩)] ⟨[⟨"Counter"⟩], none⟩
    rfl (by decide) rfl rfl (by decide)

/-- C3: a service binding without `remote: true`, in local dev with a non-null
registry: with a (non-empty) named entrypoint the verdict is connected
exactly when the registry entry for the service exists and its
`entrypointAddresses` mapping contains that entrypoint, and not-connected
otherwise; with no entrypoint, presence of the service entry alone yields
the connected marker. -/
theorem service_connected_decision (ctx : RenderContext) (sb : ServiceBinding)
    (r : Registry) (hrem : sb.remote = false) (hl : ctx.isLocal = true)
    (hr : ctx.registry = some (some r)) :
    (∀ e d m, sb.entrypoint = some e → e ≠ "" → r.lookup sb.service = some d →
      d.entrypointAddresses = some m → (m.lookup e).isSome →
      (serviceEntry ctx sb).1 = ⟨sb.binding, sb.service ++ "#" ++ e ++ " " ++
        connectedMarker ctx.mixedModeFlag⟩) ∧
    (∀ e, sb.entrypoint = some e → e ≠ "" →
      ¬ (∃ d m, r.lookup sb.service = some d ∧ d.entrypointAddresses = some m ∧
          (m.lookup e).isSome = true) →
      (serviceEntry ctx sb).1 = ⟨sb.binding, sb.service ++ "#" ++ e ++ " [not connected]"⟩) ∧
    (sb.entrypoint = none → ∀ d, r.lookup sb.service = some d →
      (serviceEntry ctx sb).1 = ⟨sb.binding, sb.service ++ " " ++
        connectedMarker ctx.mixedModeFlag⟩) ∧
    (sb.entrypoint = none → r.lookup sb.service = none →
      (serviceEntry ctx sb).1 = ⟨sb.binding, sb.service ++ " [not connected]"⟩) ∧
    (serviceEntry ctx sb).2 = true := by
  have hon : (ctx.isLocal && registryNotNull ctx.registry) = true := by
    simp [hl, registryNotNull, hr]
  have hlook : ∀ x, registryLookup ctx.registry x = r.lookup x := by
    intro x; simp [registryLookup, hr]
  refine ⟨?_, ?_, ?_, ?_, ?_⟩
  · intro e d m he hne hd hm hlk
    simp [serviceEntry, hrem, hon, hlook, hd, jsTruthyS, he, hne,
      entrypointLookup, hm, hlk, chalkGreen, String.append_assoc]
  · intro e he hne hnot
    rcases hcase : r.lookup sb.service with _ | d
    · simp [serviceEntry, hrem, hon, hlook, hcase, jsTruthyS, he, hne, chalkRed,
        String.append_assoc]
    · have hep : entrypointLookup d.entrypointAddresses e = false := by
        rcases hm : d.entrypointAddresses with _ | m
        · simp [entrypointLookup]
        · simp only [entrypointLookup]
          cases hlk : (m.lookup e).isSome
          · rfl
          · exact absurd ⟨d, m, hcase, hm, hlk⟩ hnot
      simp [serviceEntry, hrem, hon, hlook, hcase, jsTruthyS, he, hne, hep, chalkRed,
        String.append_assoc]
  · intro he d hd
    simp [serviceEntry, hrem, hon, hlook, hd, jsTruthyS, he, chalkGreen]
  · intro he hd
    simp [serviceEntry, hrem, hon, hlook, hd, jsTruthyS, he, chalkRed,
      String.append_assoc]
  · rcases hcase : r.lookup sb.service with _ | d
    · simp [serviceEntry, hrem, hon, hlook, hcase]
    · simp [serviceEntry, hrem, hon, hlook, hcase]
      split <;> simp

/-- Witness for `service_connected_decision`: a service binding with
entrypoint `"api"` against a registry entry exposing that entrypoint. -/
theorem service_connected_decision_witness :
    (serviceEntry
      ⟨some (some [("other-service", ⟨[], some [("api", ⟨"127.0.0.1", 1234⟩)]⟩)]),
        true, false, false, false⟩
      ⟨"SVC", "other-service", some "api", false⟩).1 =
      ⟨"SVC", "other-service" ++ "#" ++ "api" ++ " " ++ connectedMarker false⟩ :=
  (service_connected_decision
    ⟨some (some [("other-service", ⟨[], some [("api", ⟨"127.0.0.1", 1234⟩)]⟩)]),
      true, false, false, false⟩
    ⟨"SVC", "other-service", some "api", false⟩
    [("other-service", ⟨[], some [("api", ⟨"127.0.0.1", 1234⟩)]⟩)]
    rfl rfl rfl).1 "api" ⟨[], some [("api", ⟨"127.0.0.1", 1234⟩)]⟩
    [("api", ⟨"127.0.0.1", 1234⟩)] rfl (by decide) (by decide) rfl (by decide)

/-- C7: whenever a render performs at least one registry resolution, the
`hasConnectionStatus` flag is reported true (the flag is set in exactly the
branches that consult the registry, before any verdict is computed). -/
theorem resolution_implies_hasConnectionStatus (cfg : BindingConfig)
    (tails : List TailConsumer) (ctx : RenderContext)
    (h : 0 < resolveCount cfg tails ctx) :
    hasConnectionStatus cfg tails ctx = true := by
  have hdo : ∀ b : DurableObjectBinding, (doEntry ctx b).2 = doResolves ctx b := by
    intro b
    simp only [doEntry, doResolves]
    rcases hs : jsTruthyS b.script_name with _ | _
    · simp [hs]
    · rcases hon : (ctx.isLocal && registryNotNull ctx.registry) with _ | _
      · simp [hs, hon]
      · rcases hlk : registryLookup ctx.registry (b.script_name.getD "") with _ | d
        · simp [hs, hon, hlk]
        · by_cases hany : d.durableObjects.any (fun o => o.className == b.class_name) <;>
            simp [hs, hon, hlk, hany]
  have hsvc : ∀ sb : ServiceBinding, (serviceEntry ctx sb).2 = serviceResolves ctx sb := by
    intro sb
    simp only [serviceEntry, serviceResolves]
    rcases hrem : sb.remote with _ | _
    · rcases hon : (ctx.isLocal && registryNotNull ctx.registry) with _ | _
      · simp [hrem, hon]
      · rcases hlk : registryLookup ctx.registry sb.service with _ | d
        · simp [hrem, hon, hlk]
        · by_cases hep : (!jsTruthyS sb.entrypoint ||
              entrypointLookup d.entrypointAddresses (sb.entrypoint.getD "")) <;>
            simp [hrem, hon, hlk, hep]
    · simp [hrem]
  have htail : ∀ t : TailConsumer, (tailLine ctx t.service).2 = tailResolves ctx := by
    intro t
    simp only [tailLine, tailResolves]
    rcases hon : (ctx.isLocal && registryNotNull ctx.registry) with _ | _
    · simp [hon]
    · rcases hlk : registryLookup ctx.registry t.service with _ | d <;> simp [hon, hlk]
  have hsplit : (0 < (match cfg.durable_objects with
      | some dos => dos.bindings.countP (fun b => doResolves ctx b)
      | none => 0)) ∨
    (0 < (match cfg.services with
      | some l => l.countP (fun sb => serviceResolves ctx sb)
      | none => 0)) ∨
    0 < tails.countP (fun _ => tailResolves ctx) := by
    unfold resolveCount at h
    omega
  unfold hasConnectionStatus
  rcases hsplit with hpos | hpos | hpos
  · rcases hdos : cfg.durable_objects with _ | dos
    · simp [hdos] at hpos
    · simp only [hdos] at hpos
      obtain ⟨b, hb, hpb⟩ := List.countP_pos_iff.mp hpos
      have hany : dos.bindings.any (fun b => (doEntry ctx b).2) = true :=
        List.any_eq_true.mpr ⟨b, hb, by rw [hdo b]; exact hpb⟩
      simp [hdos, hany]
  · rcases hsvcs : cfg.services with _ | svcs
    · simp [hsvcs] at hpos
    · simp only [hsvcs] at hpos
      obtain ⟨sb, hb, hpb⟩ := List.countP_pos_iff.mp hpos
      have hany : svcs.any (fun sb => (serviceEntry ctx sb).2) = true :=
        List.any_eq_true.mpr ⟨sb, hb, by rw [hsvc sb]; exact hpb⟩
      simp [hsvcs, hany]
  · obtain ⟨t, ht, hpt⟩ := List.countP_pos_iff.mp hpos
    have hany : tails.any (fun t => (tailLine ctx t.service).2) = true :=
      List.any_eq_true.mpr ⟨t, ht, by rw [htail t]; exact hpt⟩
    simp [hany]

/-- A configuration with every binding field absent. -/
def bareConfig : BindingConfig :=
  ⟨none, none, none, none, none, none, none, none, none, none, none, none, none,
    none, none, none, none, none, none, none, none, none, none, none, none, none⟩

/-- Witness for `resolution_implies_hasConnectionStatus`: one tail consumer in
local dev with a present (empty) registry performs one resolution, and the
flag is reported. -/
theorem resolution_implies_hasConnectionStatus_witness :
    0 < resolveCount bareConfig [⟨"tailWorker"⟩]
      ⟨some (some []), true, false, false, false⟩ ∧
    hasConnectionStatus bareConfig [⟨"tailWorker"⟩]
      ⟨some (some []), true, false, false, false⟩ = true :=
  ⟨by decide,
    resolution_implies_hasConnectionStatus bareConfig [⟨"tailWorker"⟩]
      ⟨some (some []), true, false, false, false⟩ (by decide)⟩

/-- Helper: a group drawn from a list-kind segment comes from a present,
non-empty payload and carries that payload's mapped entries. -/
theorem mem_listGroup {α : Type} {payload : Option (List α)} {groupName : String}
    {f : α → DisplayEntry} {g : DisplayGroup}
    (h : g ∈ listGroup payload groupName f) :
    ∃ l, payload = some l ∧ 0 < l.length ∧ g = ⟨groupName, l.map f⟩ := by
  rcases hp : payload with _ | l
  · rw [hp] at h
    simp [listGroup] at h
  · rw [hp] at h
    by_cases hl : 0 < l.length
    · simp [listGroup, hl] at h
      exact ⟨l, rfl, hl, h⟩
    · simp [listGroup, hl] at h

/-- Helper: a group drawn from a singleton-kind segment comes from a present
payload and carries that payload's entries. -/
theorem mem_singletonGroup {α : Type} {payload : Option α} {groupName : String}
    {f : α → List DisplayEntry} {g : DisplayGroup}
    (h : g ∈ singletonGroup payload groupName f) :
    ∃ a, payload = some a ∧ g = ⟨groupName, f a⟩ := by
  rcases hp : payload with _ | a
  · rw [hp] at h
    simp [singletonGroup] at h
  · rw [hp] at h
    simp [singletonGroup] at h
    exact ⟨a, rfl, h⟩

/-- A configuration whose only populated field is `unsafe`, with an empty
bindings list and an empty (but defined) metadata record. -/
def emptyMetadataConfig : BindingConfig :=
  ⟨none, none, none, none, none, none, none, none, none, none, none, none, none,
    none, none, none, none, none, none, none, none, some ⟨some [], some []⟩,
    none, none, none, none⟩

/-- A context with no registry and all flags off. -/
def plainLocalContext : RenderContext :=
  ⟨none, false, false, false, false⟩

/-- C6 counterexample: a defined but empty `unsafe.metadata` record produces a
display group with zero entries, so the output can contain an empty group. -/
theorem empty_metadata_group_cex :
    classifyGroups emptyMetadataConfig plainLocalContext = [⟨"Unsafe Metadata", []⟩] := rfl

/-- C6 amended: every group in the classifier output has at least one entry,
except the group built from `unsafe.metadata`: a defined but empty metadata
record produces the `Unsafe Metadata` group with zero entries, and that is
the only way an empty group can appear. -/
theorem groups_nonempty_amended (cfg : BindingConfig) (ctx : RenderContext)
    (g : DisplayGroup) (hg : g ∈ classifyGroups cfg ctx) (he : g.entries = []) :
    ∃ u, cfg.unsafeCfg = some u ∧ u.metadata = some [] ∧
      g = ⟨"Unsafe Metadata", []⟩ := by
  unfold classifyGroups at hg
  simp only [List.mem_append, or_assoc] at hg
  rcases hg with h|h|h|h|h|h|h|h|h|h|h|h|h|h|h|h|h|h|h|h|h|h|h|h|h|h|h
  · obtain ⟨l, hp, hl, rfl⟩ := mem_listGroup h
    simp at he; subst he; simp at hl
  · obtain ⟨l, hp, hl, rfl⟩ := mem_listGroup h
    simp at he; subst he; simp at hl
  · obtain ⟨l, hp, hl, rfl⟩ := mem_listGroup h
    simp at he; subst he; simp at hl
  · obtain ⟨l, hp, hl, rfl⟩ := mem_listGroup h
    simp at he; subst he; simp at hl
  · obtain ⟨l, hp, hl, rfl⟩ := mem_listGroup h
    simp at he; subst he; simp at hl
  · obtain ⟨l, hp, hl, rfl⟩ := mem_listGroup h
    simp at he; subst he; simp at hl
  · obtain ⟨l, hp, hl, rfl⟩ := mem_listGroup h
    simp at he; subst he; simp at hl
  · obtain ⟨l, hp, hl, rfl⟩ := mem_listGroup h
    simp at he; subst he; simp at hl
  · obtain ⟨l, hp, hl, rfl⟩ := mem_listGroup h
    simp at he; subst he; simp at hl
  · obtain ⟨l, hp, hl, rfl⟩ := mem_listGroup h
    simp at he; subst he; simp at hl
  · obtain ⟨l, hp, hl, rfl⟩ := mem_listGroup h
    simp at he; subst he; simp at hl
  · obtain ⟨l, hp, hl, rfl⟩ := mem_listGroup h
    simp at he; subst he; simp at hl
  · obtain ⟨l, hp, hl, rfl⟩ := mem_listGroup h
    simp at he; subst he; simp at hl
  · obtain ⟨l, hp, hl, rfl⟩ := mem_listGroup h
    simp at he; subst he; simp at hl
  · obtain ⟨l, hp, hl, rfl⟩ := mem_listGroup h
    simp at he; subst he; simp at hl
  · obtain ⟨a, hp, rfl⟩ := mem_singletonGroup h
    simp at he
  · obtain ⟨a, hp, rfl⟩ := mem_singletonGroup h
    simp at he
  · obtain ⟨a, hp, rfl⟩ := mem_singletonGroup h
    simp [aiEntries] at he
  · obtain ⟨l, hp, hl, rfl⟩ := mem_listGroup h
    simp at he; subst he; simp at hl
  · obtain ⟨a, hp, rfl⟩ := mem_singletonGroup h
    simp at he
  · obtain ⟨a, hp, rfl⟩ := mem_singletonGroup h
    simp at he
  · obtain ⟨l, hp, hl, rfl⟩ := mem_listGroup h
    simp at he; subst he; simp at hl
  · obtain ⟨l, hp, hl, rfl⟩ := mem_listGroup h
    simp at he; subst he; simp at hl
  · obtain ⟨l, hp, hl, rfl⟩ := mem_listGroup h
    simp at he; subst he; simp at hl
  · obtain ⟨l, hp, hl, rfl⟩ := mem_listGroup h
    simp at he; subst he; simp at hl
  · obtain ⟨l, hp, hl, rfl⟩ := mem_listGroup h
    simp at he; subst he; simp at hl
  · obtain ⟨m, hp, rfl⟩ := mem_singletonGroup h
    have hme : metadataEntries ctx m = [] := he
    have hm : m = [] := by simpa [metadataEntries] using hme
    subst hm
    obtain ⟨u, hu, hum⟩ := Option.bind_eq_some.mp hp
    exact ⟨u, hu, hum, by simp [metadataEntries]⟩

/-- Witness for `groups_nonempty_amended` at the empty-metadata configuration. -/
theorem groups_nonempty_amended_witness :
    ∃ u, emptyMetadataConfig.unsafeCfg = some u ∧ u.metadata = some [] ∧
      (⟨"Unsafe Metadata", []⟩ : DisplayGroup) = ⟨"Unsafe Metadata", []⟩ :=
  groups_nonempty_amended emptyMetadataConfig plainLocalContext
    ⟨"Unsafe Metadata", []⟩ (by decide) rfl

/-- A configuration whose only populated field is `unsafe`, with one raw
binding and a one-field metadata record. -/
def unsafeDemoConfig : BindingConfig :=
  ⟨none, none, none, none, none, none, none, none, none, none, none, none, none,
    none, none, none, none, none, none, none, none,
    some ⟨some [⟨"n1", "t1"⟩], some [("k", Json.jstr "v")]⟩,
    none, none, none, none⟩

/-- C10: when `unsafe.bindings` is non-empty and `unsafe.metadata` is defined,
the output holds two distinct groups that share the `"Unsafe Metadata"` name:
one built from the bindings list (keyed by each record's `type` with the
record's `name` as value), emitted with no `Vars` group before it, and one
built from the metadata record (each value `JSON.stringify`-ed, not
truncated), emitted as the final group. -/
theorem unsafe_two_groups (cfg : BindingConfig) (ctx : RenderContext)
    (u : UnsafeField) (bl : List UnsafeBindingRecord) (m : List (String × Json))
    (hu : cfg.unsafeCfg = some u) (hb : u.bindings = some bl) (hbl : bl ≠ [])
    (hm : u.metadata = some m) :
    ∃ pre mid,
      classifyGroups cfg ctx =
        pre ++ ⟨"Unsafe Metadata", bl.map (unsafeBindingEntry ctx)⟩ ::
          (mid ++ [⟨"Unsafe Metadata",
            m.map (fun kv => ⟨kv.1,
              ctxAddSuffix ctx (JsStr.js (Json.stringify kv.2)) false⟩)⟩]) ∧
        ∀ g ∈ pre, g.name ≠ "Vars" := by
  have h22 : listGroup (cfg.unsafeCfg.bind UnsafeField.bindings) "Unsafe Metadata"
      (unsafeBindingEntry ctx) =
      [⟨"Unsafe Metadata", bl.map (unsafeBindingEntry ctx)⟩] := by
    rw [hu]
    simp [listGroup, hb, List.length_pos, hbl]
  have h27 : singletonGroup (cfg.unsafeCfg.bind UnsafeField.metadata) "Unsafe Metadata"
      (metadataEntries ctx) =
      [⟨"Unsafe Metadata",
        m.map (fun kv => ⟨kv.1,
          ctxAddSuffix ctx (JsStr.js (Json.stringify kv.2)) false⟩)⟩] := by
    rw [hu]
    simp [singletonGroup, hm, metadataEntries]
  refine ⟨listGroup cfg.data_blobs "Data Blobs" dataBlobEntry
    ++ listGroup (cfg.durable_objects.map DurableObjectsField.bindings) "Durable Objects"
        (fun b => (doEntry ctx b).1)
    ++ listGroup cfg.workflows "Workflows" (workflowEntry ctx)
    ++ listGroup cfg.kv_namespaces "KV Namespaces" (kvEntry ctx)
    ++ listGroup cfg.send_email "Send Email" (sendEmailEntry ctx)
    ++ listGroup cfg.queues "Queues" (queueEntry ctx)
    ++ listGroup cfg.d1_databases "D1 Databases" (d1Entry ctx)
    ++ listGroup cfg.vectorize "Vectorize Indexes" (vectorizeEntry ctx)
    ++ listGroup cfg.hyperdrive "Hyperdrive Configs" (hyperdriveEntry ctx)
    ++ listGroup cfg.r2_buckets "R2 Buckets" (r2Entry ctx)
    ++ listGroup (cfg.logfwdr.map LogfwdrField.bindings) "logfwdr" (logfwdrEntry ctx)
    ++ listGroup cfg.secrets_store_secrets "Secrets Store Secrets" (secretsStoreEntry ctx)
    ++ listGroup cfg.services "Services" (fun sb => (serviceEntry ctx sb).1)
    ++ listGroup cfg.analytics_engine_datasets "Analytics Engine Datasets" (analyticsEntry ctx)
    ++ listGroup cfg.text_blobs "Text Blobs" (textBlobEntry ctx)
    ++ singletonGroup cfg.browser "Browser" (fun b => [⟨"Name", b.binding⟩])
    ++ singletonGroup cfg.images "Images" (fun i => [imagesEntry ctx i])
    ++ singletonGroup cfg.ai "AI" (aiEntries ctx)
    ++ listGroup cfg.pipelines "Pipelines" (pipelineEntry ctx)
    ++ singletonGroup cfg.assets "Assets" (fun a => [⟨"Binding", a.binding⟩])
    ++ singletonGroup cfg.version_metadata "Worker Version Metadata"
        (fun v => [⟨"Name", ctxAddSuffix ctx (JsStr.js v.binding) false⟩]),
    listGroup cfg.vars "Vars" varsEntry
    ++ listGroup cfg.wasm_modules "Wasm Modules" (wasmEntry ctx)
    ++ listGroup cfg.dispatch_namespaces "Dispatch Namespaces" (dispatchEntry ctx)
    ++ listGroup cfg.mtls_certificates "mTLS Certificates" (mtlsEntry ctx), ?_, ?_⟩
  · unfold classifyGroups
    rw [h22, h27]
    simp [List.append_assoc, metadataEntries]
  · intro g hgmem
    simp only [List.mem_append, or_assoc] at hgmem
    rcases hgmem with h|h|h|h|h|h|h|h|h|h|h|h|h|h|h|h|h|h|h|h|h
    · obtain ⟨l, -, -, rfl⟩ := mem_listGroup h
      simp
    · obtain ⟨l, -, -, rfl⟩ := mem_listGroup h
      simp
    · obtain ⟨l, -, -, rfl⟩ := mem_listGroup h
      simp
    · obtain ⟨l, -, -, rfl⟩ := mem_listGroup h
      simp
    · obtain ⟨l, -, -, rfl⟩ := mem_listGroup h
      simp
    · obtain ⟨l, -, -, rfl⟩ := mem_listGroup h
      simp
    · obtain ⟨l, -, -, rfl⟩ := mem_listGroup h
      simp
    · obtain ⟨l, -, -, rfl⟩ := mem_listGroup h
      simp
    · obtain ⟨l, -, -, rfl⟩ := mem_listGroup h
      simp
    · obtain ⟨l, -, -, rfl⟩ := mem_listGroup h
      simp
    · obtain ⟨l, -, -, rfl⟩ := mem_listGroup h
      simp
    · obtain ⟨l, -, -, rfl⟩ := mem_listGroup h
      simp
    · obtain ⟨l, -, -, rfl⟩ := mem_listGroup h
      simp
    · obtain ⟨l, -, -, rfl⟩ := mem_listGroup h
      simp
    · obtain ⟨l, -, -, rfl⟩ := mem_listGroup h
      simp
    · obtain ⟨a, -, rfl⟩ := mem_singletonGroup h
      simp
    · obtain ⟨a, -, rfl⟩ := mem_singletonGroup h
      simp
    · obtain ⟨a, -, rfl⟩ := mem_singletonGroup h
      simp
    · obtain ⟨l, -, -, rfl⟩ := mem_listGroup h
      simp
    · obtain ⟨a, -, rfl⟩ := mem_singletonGroup h
      simp
    · obtain ⟨a, -, rfl⟩ := mem_singletonGroup h
      simp

/-- Witness for `unsafe_two_groups` at the demo configuration. -/
theorem unsafe_two_groups_witness :
    ∃ pre mid,
      classifyGroups unsafeDemoConfig plainLocalContext =
        pre ++ ⟨"Unsafe Metadata",
            [(⟨"n1", "t1"⟩ : UnsafeBindingRecord)].map (unsafeBindingEntry plainLocalContext)⟩ ::
          (mid ++ [⟨"Unsafe Metadata",
            [("k", Json.jstr "v")].map (fun kv => ⟨kv.1,
              ctxAddSuffix plainLocalContext (JsStr.js (Json.stringify kv.2)) false⟩)⟩]) ∧
        ∀ g ∈ pre, g.name ≠ "Vars" :=
  unsafe_two_groups unsafeDemoConfig plainLocalContext
    ⟨some [⟨"n1", "t1"⟩], some [("k", Json.jstr "v")]⟩
    [⟨"n1", "t1"⟩] [("k", Json.jstr "v")] rfl rfl (by simp) rfl

end Wrangler
